import Mathlib

/- Verification development for a CPU 3-D rasterization pipeline written in Rust
   (source files: main.rs and shaders.rs of the 3DPlanets_Shaders repository).

   Modelling decisions, applied uniformly:
   * f32 scalars in the geometry pipeline (matrices, vertex transform) are
     idealized as exact rationals; decimal literals of the source are read as
     exact rationals.
   * f32 scalars inside the fragment shaders are modelled by the carrier F32
     below, a tagged type with explicit NaN and infinity values, because the
     NaN and infinity behaviour of the lighting code is itself under scrutiny.
     Finite arithmetic is idealized as exact rational arithmetic; the special
     values follow IEEE-754 and, for max, min and clamp, the documented Rust
     f32 semantics.  Signed zero is not modelled.
   * Transcendental f32 functions (sin, cos, sqrt) and the external
     FastNoiseLite sampler have no rational closed form; they enter as
     explicit deterministic oracle parameters (structures RealOps and FOps).
   * color.rs and fragment.rs are not among the given sources; those two
     types are modelled from the spec (see their doc comments). -/

inductive F32 where
  | finite (q : ℚ)
  | nan
  | inf
  | ninf
deriving DecidableEq

def F32.isNan : F32 → Bool
  | nan => true
  | _ => false

def F32.isInf : F32 → Bool
  | inf => true
  | ninf => true
  | _ => false

def F32.neg : F32 → F32
  | finite q => finite (-q)
  | nan => nan
  | inf => ninf
  | ninf => inf

def F32.add : F32 → F32 → F32
  | nan, _ => nan
  | _, nan => nan
  | inf, ninf => nan
  | ninf, inf => nan
  | inf, _ => inf
  | _, inf => inf
  | ninf, _ => ninf
  | _, ninf => ninf
  | finite a, finite b => finite (a + b)

def F32.sub (a b : F32) : F32 := F32.add a (F32.neg b)

def F32.mul : F32 → F32 → F32
  | nan, _ => nan
  | _, nan => nan
  | finite a, finite b => finite (a * b)
  | inf, finite b => if 0 < b then inf else if b < 0 then ninf else nan
  | finite a, inf => if 0 < a then inf else if a < 0 then ninf else nan
  | ninf, finite b => if 0 < b then ninf else if b < 0 then inf else nan
  | finite a, ninf => if 0 < a then ninf else if a < 0 then inf else nan
  | inf, inf => inf
  | inf, ninf => ninf
  | ninf, inf => ninf
  | ninf, ninf => inf

def F32.div : F32 → F32 → F32
  | nan, _ => nan
  | _, nan => nan
  | finite a, finite b =>
      if b = 0 then (if a = 0 then nan else if 0 < a then inf else ninf)
      else finite (a / b)
  | finite _, inf => finite 0
  | finite _, ninf => finite 0
  | inf, finite b => if b < 0 then ninf else inf
  | ninf, finite b => if b < 0 then inf else ninf
  | inf, inf => nan
  | inf, ninf => nan
  | ninf, inf => nan
  | ninf, ninf => nan

def F32.leb : F32 → F32 → Bool
  | nan, _ => false
  | _, nan => false
  | ninf, _ => true
  | _, ninf => false
  | inf, inf => true
  | finite _, inf => true
  | inf, finite _ => false
  | finite a, finite b => decide (a ≤ b)

def F32.ltb (a b : F32) : Bool := F32.leb a b && !(decide (a = b))

/-- Rust f32 max: returns the other operand when one operand is NaN. -/
def F32.rustMax (a b : F32) : F32 :=
  if a.isNan then b else if b.isNan then a else if F32.leb a b then b else a

/-- Rust f32 min: returns the other operand when one operand is NaN. -/
def F32.rustMin (a b : F32) : F32 :=
  if a.isNan then b else if b.isNan then a else if F32.leb a b then a else b

/-- Rust f32 clamp: if self is less than lo take lo, else if greater than hi
take hi, else self; a NaN input passes through. -/
def F32.clamp (x lo hi : F32) : F32 :=
  if F32.ltb x lo then lo else if F32.ltb hi x then hi else x

def F32.abs : F32 → F32
  | finite q => finite |q|
  | nan => nan
  | inf => inf
  | ninf => inf

/-- Truncation of a rational toward zero, as the Rust f32 trunc does. -/
def ratTrunc (q : ℚ) : ℤ := if 0 ≤ q then ⌊q⌋ else -⌊-q⌋

/-- Rust f32 fract: self minus self truncated toward zero; NaN on non-finite
inputs. -/
def F32.fract : F32 → F32
  | finite q => finite (q - ratTrunc q)
  | nan => nan
  | inf => nan
  | ninf => nan

def usizeMax : ℕ := 2 ^ 64 - 1

/-- The Rust saturating cast from f32 to usize applied after flooring, as in
the source expression floor() as usize: negative values and NaN go to zero,
infinity goes to usize MAX. -/
def F32.floor_as_usize : F32 → ℕ
  | finite q => if q ≤ 0 then 0 else min ⌊q⌋.toNat usizeMax
  | nan => 0
  | inf => usizeMax
  | ninf => 0

instance : Add F32 := ⟨F32.add⟩
instance : Sub F32 := ⟨F32.sub⟩
instance : Mul F32 := ⟨F32.mul⟩
instance : Div F32 := ⟨F32.div⟩
instance : Neg F32 := ⟨F32.neg⟩
instance (n : ℕ) : OfNat F32 n := ⟨F32.finite n⟩

/-- The exact value of the f32 constant PI from the Rust standard library. -/
def pi32 : F32 := F32.finite (13176795 / 4194304)

/-- The Rust saturating truncating cast from f32 to usize, as in the source
expression fragment.position.x as usize: truncation toward zero, negative
values saturate to zero, values beyond usize MAX saturate to usize MAX. -/
def rat_as_usize (q : ℚ) : ℕ := if q ≤ 0 then 0 else min ⌊q⌋.toNat usizeMax

structure V2 where
  x : ℚ
  y : ℚ
deriving DecidableEq

structure V3 where
  x : ℚ
  y : ℚ
  z : ℚ
deriving DecidableEq

structure V4 where
  x : ℚ
  y : ℚ
  z : ℚ
  w : ℚ
deriving DecidableEq

/-- Row-major 3 by 3 matrix of rationals, modelling nalgebra Mat3. -/
structure Mat3 where
  m00 : ℚ
  m01 : ℚ
  m02 : ℚ
  m10 : ℚ
  m11 : ℚ
  m12 : ℚ
  m20 : ℚ
  m21 : ℚ
  m22 : ℚ
deriving DecidableEq

/-- Row-major 4 by 4 matrix of rationals, modelling nalgebra Mat4; the field
order matches the visual row-major argument order of Mat4 new. -/
structure Mat4 where
  m00 : ℚ
  m01 : ℚ
  m02 : ℚ
  m03 : ℚ
  m10 : ℚ
  m11 : ℚ
  m12 : ℚ
  m13 : ℚ
  m20 : ℚ
  m21 : ℚ
  m22 : ℚ
  m23 : ℚ
  m30 : ℚ
  m31 : ℚ
  m32 : ℚ
  m33 : ℚ
deriving DecidableEq

def Mat4.mul (a b : Mat4) : Mat4 :=
  ⟨a.m00*b.m00 + a.m01*b.m10 + a.m02*b.m20 + a.m03*b.m30,
   a.m00*b.m01 + a.m01*b.m11 + a.m02*b.m21 + a.m03*b.m31,
   a.m00*b.m02 + a.m01*b.m12 + a.m02*b.m22 + a.m03*b.m32,
   a.m00*b.m03 + a.m01*b.m13 + a.m02*b.m23 + a.m03*b.m33,
   a.m10*b.m00 + a.m11*b.m10 + a.m12*b.m20 + a.m13*b.m30,
   a.m10*b.m01 + a.m11*b.m11 + a.m12*b.m21 + a.m13*b.m31,
   a.m10*b.m02 + a.m11*b.m12 + a.m12*b.m22 + a.m13*b.m32,
   a.m10*b.m03 + a.m11*b.m13 + a.m12*b.m23 + a.m13*b.m33,
   a.m20*b.m00 + a.m21*b.m10 + a.m22*b.m20 + a.m23*b.m30,
   a.m20*b.m01 + a.m21*b.m11 + a.m22*b.m21 + a.m23*b.m31,
   a.m20*b.m02 + a.m21*b.m12 + a.m22*b.m22 + a.m23*b.m32,
   a.m20*b.m03 + a.m21*b.m13 + a.m22*b.m23 + a.m23*b.m33,
   a.m30*b.m00 + a.m31*b.m10 + a.m32*b.m20 + a.m33*b.m30,
   a.m30*b.m01 + a.m31*b.m11 + a.m32*b.m21 + a.m33*b.m31,
   a.m30*b.m02 + a.m31*b.m12 + a.m32*b.m22 + a.m33*b.m32,
   a.m30*b.m03 + a.m31*b.m13 + a.m32*b.m23 + a.m33*b.m33⟩

def Mat4.mulVec (a : Mat4) (v : V4) : V4 :=
  ⟨a.m00*v.x + a.m01*v.y + a.m02*v.z + a.m03*v.w,
   a.m10*v.x + a.m11*v.y + a.m12*v.z + a.m13*v.w,
   a.m20*v.x + a.m21*v.y + a.m22*v.z + a.m23*v.w,
   a.m30*v.x + a.m31*v.y + a.m32*v.z + a.m33*v.w⟩

def Mat3.mul (a b : Mat3) : Mat3 :=
  ⟨a.m00*b.m00 + a.m01*b.m10 + a.m02*b.m20,
   a.m00*b.m01 + a.m01*b.m11 + a.m02*b.m21,
   a.m00*b.m02 + a.m01*b.m12 + a.m02*b.m22,
   a.m10*b.m00 + a.m11*b.m10 + a.m12*b.m20,
   a.m10*b.m01 + a.m11*b.m11 + a.m12*b.m21,
   a.m10*b.m02 + a.m11*b.m12 + a.m12*b.m22,
   a.m20*b.m00 + a.m21*b.m10 + a.m22*b.m20,
   a.m20*b.m01 + a.m21*b.m11 + a.m22*b.m21,
   a.m20*b.m02 + a.m21*b.m12 + a.m22*b.m22⟩

def Mat3.mulVec (a : Mat3) (v : V3) : V3 :=
  ⟨a.m00*v.x + a.m01*v.y + a.m02*v.z,
   a.m10*v.x + a.m11*v.y + a.m12*v.z,
   a.m20*v.x + a.m21*v.y + a.m22*v.z⟩

def Mat3.transpose (m : Mat3) : Mat3 :=
  ⟨m.m00, m.m10, m.m20, m.m01, m.m11, m.m21, m.m02, m.m12, m.m22⟩

def Mat3.det (m : Mat3) : ℚ :=
  m.m00*(m.m11*m.m22 - m.m12*m.m21)
    - m.m01*(m.m10*m.m22 - m.m12*m.m20)
    + m.m02*(m.m10*m.m21 - m.m11*m.m20)

def Mat3.identity : Mat3 := ⟨1, 0, 0, 0, 1, 0, 0, 0, 1⟩

/-- The adjugate-over-determinant inverse of a 3 by 3 matrix; meaningful only
when the determinant is nonzero. -/
def Mat3.invDet (m : Mat3) : Mat3 :=
  ⟨(m.m11*m.m22 - m.m12*m.m21)/m.det, (m.m02*m.m21 - m.m01*m.m22)/m.det,
   (m.m01*m.m12 - m.m02*m.m11)/m.det,
   (m.m12*m.m20 - m.m10*m.m22)/m.det, (m.m00*m.m22 - m.m02*m.m20)/m.det,
   (m.m02*m.m10 - m.m00*m.m12)/m.det,
   (m.m10*m.m21 - m.m11*m.m20)/m.det, (m.m01*m.m20 - m.m00*m.m21)/m.det,
   (m.m00*m.m11 - m.m01*m.m10)/m.det⟩

/-- The nalgebra try_inverse on a 3 by 3 matrix: none exactly when the
determinant is zero, otherwise the inverse. -/
def Mat3.try_inverse (m : Mat3) : Option Mat3 :=
  if m.det = 0 then none else some m.invDet

/-- The nalgebra mat4_to_mat3: the top left 3 by 3 linear part. -/
def mat4_to_mat3 (m : Mat4) : Mat3 :=
  ⟨m.m00, m.m01, m.m02, m.m10, m.m11, m.m12, m.m20, m.m21, m.m22⟩

/-- Modelled from the spec: color.rs is not among the given sources.  Per the
spec a Color has three channels, supports linear interpolation and additive
blending, and is an immutable value type.  Channels are kept in the byte range
zero to 255; lerp, scalar multiplication and addition clamp each resulting
channel into that range, modelling the saturating conversion from f32 to u8
(the integer truncation of that conversion is not modelled; NaN converts to
zero, as the Rust cast does). -/
structure Color where
  r : ℚ
  g : ℚ
  b : ℚ
deriving DecidableEq

/-- Saturating conversion of an f32 channel value to the byte range. -/
def clampChan : F32 → ℚ
  | F32.finite q => max 0 (min 255 q)
  | F32.nan => 0
  | F32.inf => 255
  | F32.ninf => 0

def Color.new (r g b : ℚ) : Color := ⟨r, g, b⟩

def Color.from_hex (n : ℕ) : Color :=
  ⟨((n / 65536) % 256 : ℕ), ((n / 256) % 256 : ℕ), ((n % 256 : ℕ))⟩

def Color.lerp (a b : Color) (t : F32) : Color :=
  ⟨clampChan (F32.finite a.r + (F32.finite b.r - F32.finite a.r) * t),
   clampChan (F32.finite a.g + (F32.finite b.g - F32.finite a.g) * t),
   clampChan (F32.finite a.b + (F32.finite b.b - F32.finite a.b) * t)⟩

def Color.mulScalar (a : Color) (t : F32) : Color :=
  ⟨clampChan (F32.finite a.r * t),
   clampChan (F32.finite a.g * t),
   clampChan (F32.finite a.b * t)⟩

def Color.add (a b : Color) : Color :=
  ⟨max 0 (min 255 (a.r + b.r)),
   max 0 (min 255 (a.g + b.g)),
   max 0 (min 255 (a.b + b.b))⟩

inductive NoiseKind where
  | openSimplex2
  | perlin
deriving DecidableEq

inductive FractalKind where
  | noFractal
  | fbm
deriving DecidableEq

/-- Modelled from the spec: the FastNoiseLite noise instance is an external
crate value; the spec describes it as a bundle of a seed and fractal
parameters (octave count, lacunarity, gain, base frequency, noise kind)
whose sampler is a deterministic pure function of the instance and the
coordinates.  Only the parameter bundle is concrete here; sampling enters
through the FOps oracle. -/
structure Noise where
  seed : ℤ
  noise_kind : NoiseKind
  fractal_kind : FractalKind
  octaves : ℕ
  lacunarity : ℚ
  gain : ℚ
  frequency : ℚ
deriving DecidableEq

/-- FastNoiseLite with_seed: an instance with the crate defaults
(OpenSimplex2, no fractal, 3 octaves, lacunarity 2, gain one half,
frequency one hundredth) and the given seed. -/
def noise_with_seed (s : ℤ) : Noise :=
  ⟨s, NoiseKind.openSimplex2, FractalKind.noFractal, 3, 2, 1/2, 1/100⟩

def create_sun_noise : Noise :=
  ⟨42, NoiseKind.perlin, FractalKind.fbm, 6, 2, 1/2, 1/500⟩

def create_mars_noise : Noise :=
  ⟨5678, NoiseKind.perlin, FractalKind.fbm, 6, 2, 1/2, 1/200⟩

def create_noise : Noise := create_sun_noise

/-- The per-render-call uniform bundle of main.rs.  The source declares two
structurally identical types UniformsPlanet and UniformsMoon (and shaders.rs
refers to a crate level Uniforms); all have exactly these fields, so a single
type models them. -/
structure Uniforms where
  model_matrix : Mat4
  view_matrix : Mat4
  projection_matrix : Mat4
  viewport_matrix : Mat4
  time : ℕ
  noise : Noise
deriving DecidableEq

structure Vertex where
  position : V3
  normal : V3
  tex_coords : V2
  color : Color
  transformed_position : V3
  transformed_normal : V3
deriving DecidableEq

structure Vec3F where
  x : F32
  y : F32
  z : F32
deriving DecidableEq

/-- Modelled from the spec: fragment.rs is not among the given sources.  Per
the spec and the uses in main.rs and shaders.rs, a Fragment carries the
screen position, the interpolated depth, the interpolated normal, an
intensity scalar, and the interpolated object space position used for noise
sampling. -/
structure Fragment where
  position : V2
  depth : F32
  normal : Vec3F
  intensity : F32
  vertex_position : Vec3F
deriving DecidableEq

/-- Deterministic oracle for the f32 transcendental functions and the
FastNoiseLite samplers used by the fragment shaders; every shader is a pure
function of this oracle and its two source arguments. -/
structure FOps where
  sin : F32 → F32
  cos : F32 → F32
  sqrt : F32 → F32
  noise2d : Noise → F32 → F32 → F32
  noise3d : Noise → F32 → F32 → F32 → F32

/-- Deterministic oracle for the f32 sin and cos used by the rational-valued
geometry pipeline of main.rs. -/
structure RealOps where
  sin : ℚ → ℚ
  cos : ℚ → ℚ

def Vec3F.dot (a b : Vec3F) : F32 := a.x * b.x + a.y * b.y + a.z * b.z

def Vec3F.sub (a b : Vec3F) : Vec3F := ⟨a.x - b.x, a.y - b.y, a.z - b.z⟩

/-- nalgebra normalize: the vector divided componentwise by the square root
of its dot product with itself. -/
def Vec3F.normalize (fops : FOps) (v : Vec3F) : Vec3F :=
  let n := fops.sqrt (Vec3F.dot v v)
  ⟨v.x / n, v.y / n, v.z / n⟩

/-- create_viewport_matrix from main.rs. -/
def create_viewport_matrix (width height : ℚ) : Mat4 :=
  ⟨width / 2, 0, 0, width / 2,
   0, -(height / 2), 0, height / 2,
   0, 0, 1, 0,
   0, 0, 0, 1⟩

/-- The clip space position computed by vertex_shader: the left associated
product projection times view times model, applied to the homogeneous
position. -/
def clip_position (v : Vertex) (u : Uniforms) : V4 :=
  Mat4.mulVec (Mat4.mul (Mat4.mul u.projection_matrix u.view_matrix) u.model_matrix)
    ⟨v.position.x, v.position.y, v.position.z, 1⟩

/-- vertex_shader from shaders.rs. -/
def vertex_shader (v : Vertex) (u : Uniforms) : Vertex :=
  let transformed := clip_position v u
  let w := transformed.w
  let ndc_position : V4 := ⟨transformed.x / w, transformed.y / w, transformed.z / w, 1⟩
  let screen_position := Mat4.mulVec u.viewport_matrix ndc_position
  let model_mat3 := mat4_to_mat3 u.model_matrix
  let normal_matrix := (Mat3.try_inverse model_mat3.transpose).getD Mat3.identity
  let transformed_normal := Mat3.mulVec normal_matrix v.normal
  ⟨v.position, v.normal, v.tex_coords, v.color,
   ⟨screen_position.x, screen_position.y, screen_position.z⟩, transformed_normal⟩

theorem Mat3.mul_assoc (a b c : Mat3) :
    Mat3.mul (Mat3.mul a b) c = Mat3.mul a (Mat3.mul b c) := by
  simp only [Mat3.mul]
  congr 1 <;> ring

theorem Mat3.mul_identity (a : Mat3) : Mat3.mul a Mat3.identity = a := by
  cases a
  simp only [Mat3.mul, Mat3.identity]
  congr 1 <;> ring

theorem Mat3.identity_mul (a : Mat3) : Mat3.mul Mat3.identity a = a := by
  cases a
  simp only [Mat3.mul, Mat3.identity]
  congr 1 <;> ring

theorem Mat3.identity_mulVec (v : V3) : Mat3.mulVec Mat3.identity v = v := by
  cases v
  simp only [Mat3.mulVec, Mat3.identity]
  congr 1 <;> ring

theorem Mat3.mul_invDet (m : Mat3) (h : m.det ≠ 0) :
    Mat3.mul m m.invDet = Mat3.identity := by
  obtain ⟨a, b, c, d, e, f, g, i, j⟩ := m
  simp only [Mat3.det] at h
  simp only [Mat3.invDet, Mat3.mul, Mat3.identity, Mat3.det]
  congr 1 <;> (field_simp; try ring)

/-- C1: for every vertex and uniforms bundle whose viewport matrix is the one
built by create_viewport_matrix and whose clip space w coordinate of
projection times view times model applied to the homogeneous position is
nonzero, vertex_shader produces a transformed position equal to the viewport
matrix applied to the perspective divided clip position, which maps NDC x to
width halves times x plus width halves, maps NDC y to minus height halves
times y plus height halves (y axis flipped), and passes z through unchanged
as the depth value. -/
theorem c1_vertex_viewport_mapping (v : Vertex) (u : Uniforms) (W H : ℚ)
    (hvp : u.viewport_matrix = create_viewport_matrix W H)
    (_hw : (clip_position v u).w ≠ 0) :
    (vertex_shader v u).transformed_position =
      ⟨W / 2 * ((clip_position v u).x / (clip_position v u).w) + W / 2,
       -(H / 2) * ((clip_position v u).y / (clip_position v u).w) + H / 2,
       (clip_position v u).z / (clip_position v u).w⟩ := by
  simp only [vertex_shader, hvp, create_viewport_matrix, Mat4.mulVec]
  congr 1 <;> ring

def mat4_identity : Mat4 := ⟨1, 0, 0, 0, 0, 1, 0, 0, 0, 0, 1, 0, 0, 0, 0, 1⟩

def sample_vertex : Vertex :=
  ⟨⟨1/2, -1/4, 1/3⟩, ⟨1, 2, 3⟩, ⟨0, 1⟩, Color.new 10 20 30, ⟨0, 0, 0⟩, ⟨0, 0, 0⟩⟩

def sample_uniforms_c1 : Uniforms :=
  ⟨mat4_identity, mat4_identity, mat4_identity, create_viewport_matrix 800 600, 0,
   create_sun_noise⟩

theorem c1_vertex_viewport_mapping_witness :
    (vertex_shader sample_vertex sample_uniforms_c1).transformed_position =
      ⟨(800 : ℚ) / 2 * ((clip_position sample_vertex sample_uniforms_c1).x /
          (clip_position sample_vertex sample_uniforms_c1).w) + 800 / 2,
       -((600 : ℚ) / 2) * ((clip_position sample_vertex sample_uniforms_c1).y /
          (clip_position sample_vertex sample_uniforms_c1).w) + 600 / 2,
       (clip_position sample_vertex sample_uniforms_c1).z /
          (clip_position sample_vertex sample_uniforms_c1).w⟩ :=
  c1_vertex_viewport_mapping sample_vertex sample_uniforms_c1 800 600 rfl
    (by norm_num [clip_position, sample_uniforms_c1, sample_vertex, mat4_identity,
      Mat4.mul, Mat4.mulVec])

/-- C5: vertex_shader never fails on the normal transform.  When the
transpose of the 3 by 3 linear part of the model matrix is invertible (its
determinant is nonzero), the transformed normal is that inverse, that is the
inverse of the transpose of the linear part, applied to the object space
normal; any two sided inverse N gives exactly the produced value.  When the
determinant is zero the identity matrix is used instead, so the transformed
normal equals the object space normal. -/
theorem c5_normal_inverse_transpose_fallback (v : Vertex) (u : Uniforms) :
    ((mat4_to_mat3 u.model_matrix).transpose.det ≠ 0 →
      ∀ N : Mat3,
        Mat3.mul N (mat4_to_mat3 u.model_matrix).transpose = Mat3.identity →
        Mat3.mul (mat4_to_mat3 u.model_matrix).transpose N = Mat3.identity →
        (vertex_shader v u).transformed_normal = Mat3.mulVec N v.normal)
    ∧ ((mat4_to_mat3 u.model_matrix).transpose.det = 0 →
      (vertex_shader v u).transformed_normal = v.normal) := by
  constructor
  · intro hdet N hNl hNr
    have hinv : Mat3.try_inverse (mat4_to_mat3 u.model_matrix).transpose =
        some (mat4_to_mat3 u.model_matrix).transpose.invDet := by
      simp [Mat3.try_inverse, hdet]
    have hN : N = (mat4_to_mat3 u.model_matrix).transpose.invDet := by
      calc N = Mat3.mul N Mat3.identity := (Mat3.mul_identity N).symm
        _ = Mat3.mul N (Mat3.mul (mat4_to_mat3 u.model_matrix).transpose
              (mat4_to_mat3 u.model_matrix).transpose.invDet) := by
            rw [Mat3.mul_invDet _ hdet]
        _ = Mat3.mul (Mat3.mul N (mat4_to_mat3 u.model_matrix).transpose)
              (mat4_to_mat3 u.model_matrix).transpose.invDet :=
            (Mat3.mul_assoc N _ _).symm
        _ = Mat3.mul Mat3.identity (mat4_to_mat3 u.model_matrix).transpose.invDet := by
            rw [hNl]
        _ = (mat4_to_mat3 u.model_matrix).transpose.invDet := Mat3.identity_mul _
    rw [hN]
    simp [vertex_shader, hinv]
  · intro hdet
    have hnone : Mat3.try_inverse (mat4_to_mat3 u.model_matrix).transpose = none := by
      simp [Mat3.try_inverse, hdet]
    simp [vertex_shader, hnone, Mat3.identity_mulVec]

def sample_uniforms_inv : Uniforms :=
  ⟨⟨2, 0, 0, 0, 0, 2, 0, 0, 0, 0, 2, 0, 0, 0, 0, 1⟩, mat4_identity, mat4_identity,
   create_viewport_matrix 800 600, 0, create_sun_noise⟩

def sample_uniforms_sing : Uniforms :=
  ⟨⟨0, 0, 0, 0, 0, 0, 0, 0, 0, 0, 0, 0, 0, 0, 0, 1⟩, mat4_identity, mat4_identity,
   create_viewport_matrix 800 600, 0, create_sun_noise⟩

def half_inverse : Mat3 := ⟨1/2, 0, 0, 0, 1/2, 0, 0, 0, 1/2⟩

theorem c5_normal_inverse_transpose_fallback_witness :
    ((vertex_shader sample_vertex sample_uniforms_inv).transformed_normal =
        Mat3.mulVec half_inverse sample_vertex.normal)
    ∧ ((vertex_shader sample_vertex sample_uniforms_sing).transformed_normal =
        sample_vertex.normal) :=
  ⟨(c5_normal_inverse_transpose_fallback sample_vertex sample_uniforms_inv).1
      (by norm_num [mat4_to_mat3, Mat3.transpose, Mat3.det, sample_uniforms_inv])
      half_inverse
      (by norm_num [Mat3.mul, Mat3.identity, half_inverse, mat4_to_mat3,
        Mat3.transpose, sample_uniforms_inv])
      (by norm_num [Mat3.mul, Mat3.identity, half_inverse, mat4_to_mat3,
        Mat3.transpose, sample_uniforms_inv]),
   (c5_normal_inverse_transpose_fallback sample_vertex sample_uniforms_sing).2
      (by norm_num [mat4_to_mat3, Mat3.transpose, Mat3.det, sample_uniforms_sing])⟩

/-- C9: vertex_shader leaves the object space attributes intact: the returned
vertex keeps the input position, normal, texture coordinates and color, and
only the transformed position and transformed normal fields carry newly
computed values. -/
theorem c9_vertex_shader_preserves_attributes (v : Vertex) (u : Uniforms) :
    (vertex_shader v u).position = v.position
    ∧ (vertex_shader v u).normal = v.normal
    ∧ (vertex_shader v u).tex_coords = v.tex_coords
    ∧ (vertex_shader v u).color = v.color :=
  ⟨rfl, rfl, rfl, rfl⟩

/-- The triangle grouping loop of render in main.rs: indices zero, three, six
and so on, pushing a triple exactly when two more vertices remain; equivalent
structural form consuming three vertices at a time. -/
def group_triangles : List Vertex → List (Vertex × Vertex × Vertex)
  | a :: b :: c :: rest => (a, b, c) :: group_triangles rest
  | _ => []

/-- The vertex transform loop of render: every vertex is mapped through
vertex_shader with the call's uniforms. -/
def render_transformed (vs : List Vertex) (u : Uniforms) : List Vertex :=
  vs.map (fun v => vertex_shader v u)

/-- The fragment collection loop of render: the rasterizer (external
parameter tri, triangle.rs is not among the given sources) is applied to
each grouped triple in order and the fragment lists are concatenated. -/
def render_fragments (tri : Vertex → Vertex → Vertex → List Fragment)
    (vs : List Vertex) (u : Uniforms) : List Fragment :=
  ((group_triangles (render_transformed vs u)).map
    (fun t => tri t.1 t.2.1 t.2.2)).flatten

theorem group_triangles_length : ∀ l : List Vertex,
    (group_triangles l).length = l.length / 3
  | [] => by simp [group_triangles]
  | [a] => by simp [group_triangles]
  | [a, b] => by simp [group_triangles]
  | a :: b :: c :: rest => by
      simp only [group_triangles, List.length_cons]
      rw [group_triangles_length rest]
      omega

theorem group_triangles_getElem : ∀ (l : List Vertex) (k : ℕ),
    (group_triangles l)[k]? =
      l[3*k]?.bind (fun a => l[3*k+1]?.bind (fun b =>
        l[3*k+2]?.map (fun c => (a, b, c))))
  | [], k => by simp [group_triangles]
  | [a], k => by
      match k with
      | 0 => simp [group_triangles]
      | k+1 =>
        have h1 : ([a] : List Vertex)[3*(k+1)]? = none :=
          List.getElem?_eq_none (by simp; omega)
        simp [group_triangles, h1]
  | [a, b], k => by
      match k with
      | 0 => simp [group_triangles]
      | k+1 =>
        have h1 : ([a, b] : List Vertex)[3*(k+1)]? = none :=
          List.getElem?_eq_none (by simp; omega)
        simp [group_triangles, h1]
  | a :: b :: c :: rest, k => by
      match k with
      | 0 => simp [group_triangles]
      | k+1 =>
        have e2 : 3*(k+1)+2 = 3*k+2+1+1+1 := by ring
        have e1 : 3*(k+1)+1 = 3*k+1+1+1+1 := by ring
        have e0 : 3*(k+1) = 3*k+1+1+1 := by ring
        rw [e2, e1, e0]
        simp only [group_triangles, List.getElem?_cons_succ]
        exact group_triangles_getElem rest k

/-- C2: for every vertex list of length n passed to render, exactly n div 3
triangles are formed; the k-th triangle uses the transformed vertices at
indices 3k, 3k plus one and 3k plus two (consecutive non overlapping triples
in order, expressed through optional indexing, so any index reaching past
the end of the stream yields no triangle); and the fragment stream is the
concatenation of the rasterizer output over exactly those triples, so the
trailing n mod 3 vertices produce no triangle and no fragments. -/
theorem c2_triangle_grouping (u : Uniforms) (vs : List Vertex)
    (tri : Vertex → Vertex → Vertex → List Fragment) :
    (group_triangles (render_transformed vs u)).length = vs.length / 3
    ∧ (∀ k : ℕ, (group_triangles (render_transformed vs u))[k]? =
        (render_transformed vs u)[3*k]?.bind (fun a =>
          (render_transformed vs u)[3*k+1]?.bind (fun b =>
            (render_transformed vs u)[3*k+2]?.map (fun c => (a, b, c)))))
    ∧ render_fragments tri vs u =
        ((group_triangles (render_transformed vs u)).map
          (fun t => tri t.1 t.2.1 t.2.2)).flatten := by
  refine ⟨?_, ?_, rfl⟩
  · rw [group_triangles_length]
    simp [render_transformed]
  · intro k
    exact group_triangles_getElem (render_transformed vs u) k

/-- The per fragment write decision of the render loop in main.rs: the
fragment position is cast from f32 to usize (a truncating saturating cast)
and the framebuffer point write happens exactly when both casts land
strictly below the framebuffer width and height. -/
def render_writes (w h : ℕ) (f : Fragment) : Bool :=
  decide (rat_as_usize f.position.x < w) && decide (rat_as_usize f.position.y < h)

/-- The pixel the render loop passes to the framebuffer point write. -/
def render_target (f : Fragment) : ℕ × ℕ :=
  (rat_as_usize f.position.x, rat_as_usize f.position.y)

def frag_neg : Fragment :=
  ⟨⟨-5, 3⟩, F32.finite 0, ⟨F32.finite 0, F32.finite 0, F32.finite 1⟩,
   F32.finite 1, ⟨F32.finite 0, F32.finite 0, F32.finite 0⟩⟩

/-- C3 counterexample: a fragment whose screen x coordinate is negative five,
hence outside the framebuffer extents, nevertheless passes the render loop
filter of an 800 by 600 framebuffer (the saturating cast maps negative five
to zero), so the framebuffer point write is invoked for it, contradicting
the claim that every fragment with negative screen coordinates is filtered
out and causes no framebuffer write. -/
theorem c3_counterexample :
    render_writes 800 600 frag_neg = true ∧ frag_neg.position.x < 0 := by
  constructor
  · norm_num [render_writes, rat_as_usize, frag_neg, usizeMax]
  · norm_num [frag_neg]

/-- C3 amended: the render loop invokes the framebuffer point write exactly
when the saturating truncating casts of the fragment screen coordinates to
usize land inside the framebuffer extents; fragments at or beyond the right
or bottom extents are filtered out, but a fragment with a nonpositive x
coordinate is clamped to column zero by the cast (and similarly for y), and
so does cause a write at the clamped pixel rather than being filtered. -/
theorem c3_bounds_filter (w h : ℕ) (f : Fragment) :
    (render_writes w h f = true ↔
      rat_as_usize f.position.x < w ∧ rat_as_usize f.position.y < h)
    ∧ (f.position.x ≤ 0 → (render_target f).1 = 0)
    ∧ (w ≤ usizeMax → (w : ℚ) ≤ f.position.x → render_writes w h f = false) := by
  refine ⟨?_, ?_, ?_⟩
  · simp [render_writes]
  · intro hx
    simp [render_target, rat_as_usize, hx]
  · intro hwmax hx
    rcases Nat.eq_zero_or_pos w with hw0 | hw0
    · subst hw0
      simp [render_writes]
    · have hx0 : ¬ f.position.x ≤ 0 := by
        have h1 : (1 : ℚ) ≤ (w : ℚ) := by exact_mod_cast hw0
        have h2 := le_trans h1 hx
        intro hle
        linarith
      have hfl : (w : ℤ) ≤ ⌊f.position.x⌋ := by
        rw [Int.le_floor]
        exact_mod_cast hx
      have hge : w ≤ rat_as_usize f.position.x := by
        simp only [rat_as_usize, if_neg hx0]
        refine le_min ?_ hwmax
        omega
      have hnlt : ¬ rat_as_usize f.position.x < w := not_lt.mpr hge
      simp [render_writes, hnlt]

/-- sun_shader from shaders.rs. -/
def sun_shader (fops : FOps) (fragment : Fragment) (uniforms : Uniforms) : Color :=
  let bright_color := Color.new 255 240 0
  let dark_color := Color.new 130 20 0
  let position : Vec3F :=
    ⟨fragment.vertex_position.x, fragment.vertex_position.y, fragment.depth⟩
  let base_frequency := F32.finite (1/5)
  let pulsate_amplitude := F32.finite (1/2)
  let t := F32.finite (uniforms.time : ℚ) * F32.finite (3/10)
  let pulsate := fops.sin (t * base_frequency) * pulsate_amplitude
  let zoom : F32 := 1000
  let noise_value1 := fops.noise3d uniforms.noise
    (position.x * zoom) (position.y * zoom) ((position.z + pulsate) * zoom)
  let noise_value2 := fops.noise3d uniforms.noise
    ((position.x + 1000) * zoom) ((position.y + 1000) * zoom)
    ((position.z + 1000 + pulsate) * zoom)
  let noise_value := (noise_value1 + noise_value2) * F32.finite (1/2)
  let color := dark_color.lerp bright_color noise_value
  color.mulScalar fragment.intensity

/-- The color array of time_based_color_cycling_shader. -/
def cycling_palette : List Color :=
  [Color.new 255 0 0, Color.new 0 255 0, Color.new 0 0 255,
   Color.new 255 255 0, Color.new 255 0 255, Color.new 0 255 255]

/-- time_based_color_cycling_shader from shaders.rs. -/
def time_based_color_cycling_shader (fragment : Fragment) (uniforms : Uniforms) : Color :=
  let frames_per_color : ℕ := 100
  let color_index := (uniforms.time / frames_per_color) % cycling_palette.length
  let transition_progress :=
    F32.finite ((uniforms.time % frames_per_color : ℕ) / (frames_per_color : ℚ))
  let current_color := cycling_palette.getD color_index (Color.new 0 0 0)
  let next_color :=
    cycling_palette.getD ((color_index + 1) % cycling_palette.length) (Color.new 0 0 0)
  (current_color.lerp next_color transition_progress).mulScalar fragment.intensity

/-- moving_horizontal_stripes_shader from shaders.rs. -/
def moving_horizontal_stripes_shader (fops : FOps) (fragment : Fragment)
    (uniforms : Uniforms) : Color :=
  let color1 := Color.new 255 0 0
  let color2 := Color.new 0 0 255
  let stripe_width := F32.finite (1/5)
  let speed := F32.finite (1/500)
  let moving_y := fragment.vertex_position.y + F32.finite (uniforms.time : ℚ) * speed
  let stripe_factor :=
    fops.sin ((moving_y / stripe_width) * pi32) * F32.finite (1/2) + F32.finite (1/2)
  (color1.lerp color2 stripe_factor).mulScalar fragment.intensity

/-- moving_polka_dot_shader from shaders.rs. -/
def moving_polka_dot_shader (fops : FOps) (fragment : Fragment)
    (uniforms : Uniforms) : Color :=
  let background_color := Color.new 250 250 250
  let dot_color := Color.new 255 0 0
  let dot_size := F32.finite (1/10)
  let dot_spacing := F32.finite (3/10)
  let speed := F32.finite (1/1000)
  let moving_x := fragment.vertex_position.x + F32.finite (uniforms.time : ℚ) * speed
  let moving_y := fragment.vertex_position.y -
    F32.finite (uniforms.time : ℚ) * speed * F32.finite (1/2)
  let pattern_x := fops.cos ((moving_x / dot_spacing) * 2 * pi32)
  let pattern_y := fops.cos ((moving_y / dot_spacing) * 2 * pi32)
  let dot_pattern := F32.rustMax (pattern_x * pattern_y) 0
  let dot_factor := F32.rustMax (dot_pattern - (1 - dot_size)) 0 / dot_size
  (background_color.lerp dot_color dot_factor).mulScalar fragment.intensity

/-- disco_ball_shader from shaders.rs; the five light loop is a fold over the
range of num_lights. -/
def disco_ball_shader (fops : FOps) (fragment : Fragment)
    (uniforms : Uniforms) : Color :=
  let base_color := Color.new 100 100 210
  let light_color := Color.new 255 255 255
  let tile_freq_x : F32 := 20
  let tile_freq_y : F32 := 40
  let tile_freq_z : F32 := 20
  let tile_scale := F32.finite (1/20)
  let light_speed := F32.finite (1/20)
  let num_lights : ℕ := 5
  let light_size := F32.finite (3/20)
  let x := fragment.vertex_position.x
  let y := fragment.vertex_position.y
  let z := fragment.vertex_position.z
  let tile_pattern := F32.rustMin
    ((((fops.sin (x * tile_freq_x)).abs * F32.finite (1/2) + F32.finite (1/2)) *
      ((fops.sin (y * tile_freq_y)).abs * F32.finite (4/5) + F32.finite (1/5)) *
      ((fops.sin (z * tile_freq_z)).abs * F32.finite (1/2) + F32.finite (1/2))) *
      tile_scale) 1
  let normal := Vec3F.normalize fops fragment.normal
  let light_dir : Vec3F := ⟨0, 0, -1⟩
  let light_intensity := F32.rustMax (Vec3F.dot normal light_dir) 0
  let light_factor := (List.range num_lights).foldl (fun lf i =>
    let angle := 2 * pi32 * (F32.finite (i : ℚ) / F32.finite (num_lights : ℚ)) +
      F32.finite (uniforms.time : ℚ) * light_speed
    let light_x := (fops.cos angle * F32.finite (1/2) + F32.finite (1/2)) *
      F32.finite (4/5) + F32.finite (1/10)
    let light_y := (fops.sin angle * F32.finite (1/2) + F32.finite (1/2)) *
      F32.finite (4/5) + F32.finite (1/10)
    let dist := fops.sqrt ((x - light_x) * (x - light_x) + (y - light_y) * (y - light_y))
    lf + F32.rustMax (1 - F32.rustMin (dist / light_size) 1) 0) 0
  let light_factor := F32.rustMin light_factor 1
  let tile_color := base_color.lerp light_color (tile_pattern * light_intensity)
  (tile_color.lerp light_color (light_factor * F32.finite (7/10))).mulScalar
    fragment.intensity

/-- mars_shader from shaders.rs. -/
def mars_shader (fops : FOps) (fragment : Fragment) (uniforms : Uniforms) : Color :=
  let bright_color := Color.new 150 70 30
  let mid_color := Color.new 160 80 30
  let dark_color := Color.new 100 40 20
  let position : Vec3F :=
    ⟨fragment.vertex_position.x, fragment.vertex_position.y, fragment.depth⟩
  let zoom : F32 := 1200
  let noise_value1 := fops.noise3d uniforms.noise
    (position.x * zoom) (position.y * zoom) (position.z * zoom)
  let noise_value2 := fops.noise3d uniforms.noise
    ((position.x + 400) * zoom) ((position.y + 400) * zoom) ((position.z + 400) * zoom)
  let noise_value := (noise_value1 + noise_value2) * F32.finite (1/2)
  let crater_frequency : F32 := 3
  let crater_amplitude := F32.finite (3/5)
  let crater_value := fops.sin (position.x * crater_frequency) *
    fops.cos (position.y * crater_frequency) * crater_amplitude
  let combined_value := F32.clamp (noise_value + crater_value) 0 1
  let fine_noise := fops.noise3d uniforms.noise
    (position.x * 2500) (position.y * 2500) (position.z * 2500) * F32.finite (1/2)
  let combined_value := F32.clamp (combined_value + fine_noise) 0 1
  let fracture_noise := fops.noise3d uniforms.noise
    (position.x * 3000) (position.y * 3000) (position.z * 3000) * F32.finite (3/10)
  let combined_value := F32.clamp (combined_value + fracture_noise) 0 1
  let base_color :=
    if F32.ltb (F32.finite (1/2)) combined_value then
      mid_color.lerp bright_color ((combined_value - F32.finite (1/2)) * F32.finite (3/2))
    else
      dark_color.lerp mid_color (combined_value * 2)
  let light_factor := fops.sin (position.y * F32.finite (1/2) +
    F32.finite (uniforms.time : ℚ) * F32.finite (3/2000)) * F32.finite (1/10) + 1
  let directional_light := fops.cos (position.x * F32.finite (3/10) +
    F32.finite (uniforms.time : ℚ) * F32.finite (1/500)) * F32.finite (1/20) + 1
  let final_light_factor := light_factor * directional_light
  let final_color := base_color.mulScalar final_light_factor
  let pulsate_frequency := F32.finite (1/20)
  let pulsate_amplitude := F32.finite (1/10)
  let pulsate := fops.sin (F32.finite (uniforms.time : ℚ) * pulsate_frequency +
    position.x * F32.finite (1/50) + position.y * F32.finite (1/50)) * pulsate_amplitude
  let final_color := final_color.mulScalar (1 + pulsate)
  let shadow_texture_noise := fops.noise3d uniforms.noise
    (position.x * 3500) (position.y * 3500) (position.z * 3500) * F32.finite (2/5)
  let final_color := final_color.mulScalar (1 - shadow_texture_noise)
  final_color.mulScalar fragment.intensity

def jupiter_light_position : Vec3F := ⟨0, 8, 9⟩

/-- The diffuse dot product of jupiter_shader: normalized fragment normal
dotted with the normalized direction from the fragment position to the light
position, before the max with zero. -/
def jupiter_dot (fops : FOps) (fragment : Fragment) : F32 :=
  Vec3F.dot (Vec3F.normalize fops fragment.normal)
    (Vec3F.normalize fops (Vec3F.sub jupiter_light_position fragment.vertex_position))

def jupiter_band_colors : List Color :=
  [Color.from_hex 0xc6bcad, Color.from_hex 0x955d36, Color.from_hex 0xc7c7cf]

/-- jupiter_shader from shaders.rs; the panic on a NaN or infinite diffuse
value is modelled as an error result, any other run returns the ok color
pair.  The source checks the diffuse value only after clamping the dot
product with max zero. -/
def jupiter_shader (fops : FOps) (fragment : Fragment) (uniforms : Uniforms)
    (time : ℕ) : Except String (Color × ℕ) :=
  let _ := time
  let latitude := fragment.vertex_position.y
  let band_frequency : F32 := 10
  let band_noise := fops.noise2d uniforms.noise
    (fragment.vertex_position.x * 2) (fragment.vertex_position.y * 2)
  let band_noise_intensity := F32.finite (1/5)
  let distorted_latitude := latitude + band_noise * band_noise_intensity
  let band_pattern := fops.sin (distorted_latitude * band_frequency)
  let normalized_band := (band_pattern + 1) / 2 *
    (F32.finite (jupiter_band_colors.length : ℚ) - 1)
  let index := F32.floor_as_usize normalized_band
  let t := F32.fract normalized_band
  let color1 := jupiter_band_colors.getD (index % jupiter_band_colors.length)
    (Color.new 0 0 0)
  let color2 := jupiter_band_colors.getD ((index + 1) % jupiter_band_colors.length)
    (Color.new 0 0 0)
  let base_color := color1.lerp color2 t
  let turbulence_intensity := F32.finite (3/10)
  let turbulence_color := base_color.lerp (Color.from_hex 0xffffff) turbulence_intensity
  let diffuse := F32.rustMax (jupiter_dot fops fragment) 0
  if diffuse.isNan || diffuse.isInf then
    Except.error "Diffuse calculation resulted in NaN or infinity!"
  else
    let ambient_intensity := F32.finite (3/20)
    let ambient_color := turbulence_color.mulScalar ambient_intensity
    let lit_color := turbulence_color.mulScalar diffuse
    Except.ok (Color.add ambient_color lit_color, 0)

/-- Fragment update helper: the same fragment with a replaced intensity. -/
def set_intensity (f : Fragment) (i : F32) : Fragment :=
  ⟨f.position, f.depth, f.normal, i, f.vertex_position⟩

/-- A color whose channels lie in the byte range. -/
def Color.inRange (c : Color) : Prop :=
  0 ≤ c.r ∧ c.r ≤ 255 ∧ 0 ≤ c.g ∧ c.g ≤ 255 ∧ 0 ≤ c.b ∧ c.b ≤ 255

theorem clampChan_nonneg (x : F32) : 0 ≤ clampChan x := by
  cases x <;> simp [clampChan]

theorem clampChan_le (x : F32) : clampChan x ≤ 255 := by
  cases x <;> simp [clampChan]

theorem Color.lerp_inRange (a b : Color) (t : F32) : Color.inRange (Color.lerp a b t) :=
  ⟨clampChan_nonneg _, clampChan_le _, clampChan_nonneg _, clampChan_le _,
   clampChan_nonneg _, clampChan_le _⟩

theorem Color.mulScalar_inRange (a : Color) (t : F32) :
    Color.inRange (Color.mulScalar a t) :=
  ⟨clampChan_nonneg _, clampChan_le _, clampChan_nonneg _, clampChan_le _,
   clampChan_nonneg _, clampChan_le _⟩

theorem F32.mul_finite (a b : ℚ) :
    F32.finite a * F32.finite b = F32.finite (a * b) := rfl

theorem F32.add_finite (a b : ℚ) :
    F32.finite a + F32.finite b = F32.finite (a + b) := rfl

theorem clampChan_mul_one (q : ℚ) (h0 : 0 ≤ q) (h1 : q ≤ 255) :
    clampChan (F32.finite q * F32.finite 1) = q := by
  rw [F32.mul_finite, mul_one]
  simp only [clampChan]
  rw [min_eq_right h1, max_eq_right h0]

theorem Color.mulScalar_one (c : Color) (h : Color.inRange c) :
    Color.mulScalar c (F32.finite 1) = c := by
  obtain ⟨h1, h2, h3, h4, h5, h6⟩ := h
  obtain ⟨r, g, b⟩ := c
  simp only [Color.mulScalar]
  congr 1
  · exact clampChan_mul_one _ h1 h2
  · exact clampChan_mul_one _ h3 h4
  · exact clampChan_mul_one _ h5 h6

/-- Any color scaled by a zero intensity is the zero color; used when reading
the intensity scaling contract of the shader catalog. -/
theorem Color.mulScalar_zero (c : Color) :
    Color.mulScalar c (F32.finite 0) = Color.new 0 0 0 := by
  simp only [Color.mulScalar, Color.new, F32.mul_finite, mul_zero, clampChan]
  norm_num

theorem F32.hmul_def (a b : F32) : a * b = F32.mul a b := rfl

theorem F32.hadd_def (a b : F32) : a + b = F32.add a b := rfl

theorem F32.hsub_def (a b : F32) : a - b = F32.sub a b := rfl

theorem F32.hdiv_def (a b : F32) : a / b = F32.div a b := rfl

theorem F32.hneg_def (a : F32) : -a = F32.neg a := rfl

/-- C7 amended: each shader actually dispatched by the material selector of
main.rs (sun, mars, horizontal stripes, polka dot, disco ball, time based
color cycling) returns its final color scaled by the fragment intensity
scalar: its output at any fragment equals its output at the same fragment
with unit intensity, scaled by the fragment intensity.  The jupiter shader
cited by the claim does not scale by the intensity (see the counterexample
theorem). -/
theorem c7_intensity_scaling (fops : FOps) (f : Fragment) (u : Uniforms) :
    sun_shader fops f u =
      Color.mulScalar (sun_shader fops (set_intensity f (F32.finite 1)) u) f.intensity
    ∧ mars_shader fops f u =
      Color.mulScalar (mars_shader fops (set_intensity f (F32.finite 1)) u) f.intensity
    ∧ time_based_color_cycling_shader f u =
      Color.mulScalar (time_based_color_cycling_shader (set_intensity f (F32.finite 1)) u)
        f.intensity
    ∧ moving_horizontal_stripes_shader fops f u =
      Color.mulScalar (moving_horizontal_stripes_shader fops
        (set_intensity f (F32.finite 1)) u) f.intensity
    ∧ moving_polka_dot_shader fops f u =
      Color.mulScalar (moving_polka_dot_shader fops
        (set_intensity f (F32.finite 1)) u) f.intensity
    ∧ disco_ball_shader fops f u =
      Color.mulScalar (disco_ball_shader fops
        (set_intensity f (F32.finite 1)) u) f.intensity := by
  refine ⟨?_, ?_, ?_, ?_, ?_, ?_⟩
  · simp only [sun_shader, set_intensity]
    rw [Color.mulScalar_one _ (Color.lerp_inRange _ _ _)]
  · simp only [mars_shader, set_intensity]
    rw [Color.mulScalar_one _ (Color.mulScalar_inRange _ _)]
  · simp only [time_based_color_cycling_shader, set_intensity]
    rw [Color.mulScalar_one _ (Color.lerp_inRange _ _ _)]
  · simp only [moving_horizontal_stripes_shader, set_intensity]
    rw [Color.mulScalar_one _ (Color.lerp_inRange _ _ _)]
  · simp only [moving_polka_dot_shader, set_intensity]
    rw [Color.mulScalar_one _ (Color.lerp_inRange _ _ _)]
  · simp only [disco_ball_shader, set_intensity]
    rw [Color.mulScalar_one _ (Color.lerp_inRange _ _ _)]

/-- A concrete deterministic oracle used for concrete evaluations: sin and
cos return zero, sqrt is the identity, both noise samplers return zero. -/
def fops0 : FOps :=
  ⟨fun _ => F32.finite 0, fun _ => F32.finite 0, fun x => x,
   fun _ _ _ => F32.finite 0, fun _ _ _ _ => F32.finite 0⟩

def uniforms0 : Uniforms :=
  ⟨mat4_identity, mat4_identity, mat4_identity, create_viewport_matrix 800 600, 0,
   noise_with_seed 0⟩

def frag_j : Fragment :=
  ⟨⟨0, 0⟩, F32.finite 0, ⟨F32.finite 0, F32.finite 0, F32.finite 1⟩, F32.finite 0,
   ⟨F32.finite 0, F32.finite 0, F32.finite 0⟩⟩

def frag_nan_normal : Fragment :=
  ⟨⟨0, 0⟩, F32.finite 0, ⟨F32.finite 0, F32.finite 0, F32.finite 0⟩, F32.finite 1,
   ⟨F32.finite 0, F32.finite 0, F32.finite 0⟩⟩

/-- C4: at a fragment with a zero length normal the diffuse dot product of
jupiter_shader evaluates to NaN, yet the shader returns a color instead of
aborting: the source clamps the dot product with max zero before the NaN and
infinity check, and the Rust f32 max discards a NaN operand, so the check the
panic message promises can never fire on a NaN dot product. -/
theorem c4_nan_dot_not_detected :
    (jupiter_dot fops0 frag_nan_normal).isNan = true
    ∧ (jupiter_shader fops0 frag_nan_normal uniforms0 0).isOk = true := by
  constructor
  · norm_num [jupiter_dot, Vec3F.normalize, Vec3F.dot, Vec3F.sub, fops0,
      frag_nan_normal, jupiter_light_position, F32.hmul_def, F32.hadd_def,
      F32.hsub_def, F32.hdiv_def, F32.mul, F32.add, F32.sub, F32.neg, F32.div,
      F32.isNan]
  · norm_num [jupiter_shader, jupiter_dot, jupiter_band_colors,
      jupiter_light_position, Vec3F.normalize, Vec3F.dot, Vec3F.sub, fops0,
      frag_nan_normal, uniforms0, F32.hmul_def, F32.hadd_def, F32.hsub_def,
      F32.hdiv_def, F32.mul, F32.add, F32.sub, F32.neg, F32.div, F32.rustMax,
      F32.isNan, F32.isInf, F32.fract, F32.floor_as_usize, ratTrunc, usizeMax,
      Color.lerp, Color.mulScalar, Color.add, Color.from_hex, Color.new,
      clampChan, Except.isOk, Except.toBool, min_def, max_def]

/-- C7 counterexample: jupiter_shader, cited by the claim, does not scale its
result by the fragment intensity: at a fragment whose intensity is zero it
returns a nonzero color, while a color scaled by zero intensity is always the
zero color (theorem Color.mulScalar_zero), so the returned color cannot equal
any computed color multiplied by the fragment intensity. -/
theorem c7_counterexample :
    frag_j.intensity = F32.finite 0
    ∧ (jupiter_shader fops0 frag_j uniforms0 0).isOk = true
    ∧ jupiter_shader fops0 frag_j uniforms0 0 ≠ Except.ok (Color.new 0 0 0, 0) := by
  refine ⟨rfl, ?_, ?_⟩
  · norm_num [jupiter_shader, jupiter_dot, jupiter_band_colors,
      jupiter_light_position, Vec3F.normalize, Vec3F.dot, Vec3F.sub, fops0,
      frag_j, uniforms0, F32.hmul_def, F32.hadd_def, F32.hsub_def,
      F32.hdiv_def, F32.mul, F32.add, F32.sub, F32.neg, F32.div, F32.rustMax,
      F32.isNan, F32.isInf, F32.fract, F32.floor_as_usize, ratTrunc, usizeMax,
      Color.lerp, Color.mulScalar, Color.add, Color.from_hex, Color.new,
      clampChan, Except.isOk, Except.toBool, min_def, max_def, F32.leb]
  · norm_num [jupiter_shader, jupiter_dot, jupiter_band_colors,
      jupiter_light_position, Vec3F.normalize, Vec3F.dot, Vec3F.sub, fops0,
      frag_j, uniforms0, F32.hmul_def, F32.hadd_def, F32.hsub_def,
      F32.hdiv_def, F32.mul, F32.add, F32.sub, F32.neg, F32.div, F32.rustMax,
      F32.isNan, F32.isInf, F32.fract, F32.floor_as_usize, ratTrunc, usizeMax,
      Color.lerp, Color.mulScalar, Color.add, Color.from_hex, Color.new,
      clampChan, min_def, max_def, F32.leb, Except.ok.injEq, Prod.mk.injEq,
      Color.mk.injEq]

/-- C6: every shader of the catalog is a deterministic pure function of its
oracle and its two source arguments: two invocations with an identical
fragment and an identical uniforms bundle (same matrices, time, and noise
instance) return identical colors; there is no hidden mutable state or
randomness in the shallow embedding, whose oracle bundle is itself a fixed
function. -/
theorem c6_shader_determinism (fops : FOps) (f f2 : Fragment) (u u2 : Uniforms)
    (n : ℕ) (hf : f = f2) (hu : u = u2) :
    sun_shader fops f u = sun_shader fops f2 u2
    ∧ mars_shader fops f u = mars_shader fops f2 u2
    ∧ time_based_color_cycling_shader f u = time_based_color_cycling_shader f2 u2
    ∧ moving_horizontal_stripes_shader fops f u = moving_horizontal_stripes_shader fops f2 u2
    ∧ moving_polka_dot_shader fops f u = moving_polka_dot_shader fops f2 u2
    ∧ disco_ball_shader fops f u = disco_ball_shader fops f2 u2
    ∧ jupiter_shader fops f u n = jupiter_shader fops f2 u2 n := by
  subst hf
  subst hu
  exact ⟨rfl, rfl, rfl, rfl, rfl, rfl, rfl⟩

theorem c6_shader_determinism_witness :
    sun_shader fops0 frag_j uniforms0 = sun_shader fops0 frag_j uniforms0
    ∧ mars_shader fops0 frag_j uniforms0 = mars_shader fops0 frag_j uniforms0
    ∧ time_based_color_cycling_shader frag_j uniforms0 =
        time_based_color_cycling_shader frag_j uniforms0
    ∧ moving_horizontal_stripes_shader fops0 frag_j uniforms0 =
        moving_horizontal_stripes_shader fops0 frag_j uniforms0
    ∧ moving_polka_dot_shader fops0 frag_j uniforms0 =
        moving_polka_dot_shader fops0 frag_j uniforms0
    ∧ disco_ball_shader fops0 frag_j uniforms0 =
        disco_ball_shader fops0 frag_j uniforms0
    ∧ jupiter_shader fops0 frag_j uniforms0 0 = jupiter_shader fops0 frag_j uniforms0 0 :=
  c6_shader_determinism fops0 frag_j frag_j uniforms0 uniforms0 0 rfl rfl

/-- C10 amended: time_based_color_cycling_shader is periodic in time with
period 600 frames: two uniforms bundles whose time values differ by exactly
600 yield the same color at every fragment; and within a period the output
at time t is the linear interpolation between palette color t div 100 mod 6
and the next palette color, with interpolation progress t mod 100 over 100,
scaled by the fragment intensity scalar. -/
theorem c10_time_cycling_period (f : Fragment) (u u2 : Uniforms)
    (hu : u2.time = u.time + 600) :
    time_based_color_cycling_shader f u2 = time_based_color_cycling_shader f u
    ∧ time_based_color_cycling_shader f u =
        Color.mulScalar
          (Color.lerp
            (cycling_palette.getD (u.time / 100 % 6) (Color.new 0 0 0))
            (cycling_palette.getD ((u.time / 100 % 6 + 1) % 6) (Color.new 0 0 0))
            (F32.finite ((u.time % 100 : ℕ) / (100 : ℚ))))
          f.intensity := by
  have hlen : cycling_palette.length = 6 := by simp [cycling_palette]
  constructor
  · have h1 : u2.time / 100 % 6 = u.time / 100 % 6 := by omega
    have h2 : u2.time % 100 = u.time % 100 := by omega
    simp only [time_based_color_cycling_shader, hlen, h1, h2]
  · simp only [time_based_color_cycling_shader, hlen, Nat.cast_ofNat]

def uniforms600 : Uniforms :=
  ⟨mat4_identity, mat4_identity, mat4_identity, create_viewport_matrix 800 600, 600,
   noise_with_seed 0⟩

theorem c10_time_cycling_period_witness :
    time_based_color_cycling_shader frag_j uniforms600 =
      time_based_color_cycling_shader frag_j uniforms0 :=
  (c10_time_cycling_period frag_j uniforms0 uniforms600 rfl).1

def frag_half : Fragment :=
  ⟨⟨0, 0⟩, F32.finite 0, ⟨F32.finite 0, F32.finite 0, F32.finite 1⟩,
   F32.finite (1/2), ⟨F32.finite 0, F32.finite 0, F32.finite 0⟩⟩

/-- C10 counterexample: the claim omits the intensity scaling.  At time zero
and a fragment with intensity one half, the shader output is the
interpolation between the first two palette colors at progress zero (pure
red) scaled by one half, which differs from that interpolation itself. -/
theorem c10_counterexample :
    time_based_color_cycling_shader frag_half uniforms0 ≠
      Color.lerp (Color.new 255 0 0) (Color.new 0 255 0) (F32.finite 0) := by
  norm_num [time_based_color_cycling_shader, cycling_palette, frag_half, uniforms0,
    Color.lerp, Color.mulScalar, Color.new, clampChan, F32.hmul_def, F32.hadd_def,
    F32.hsub_def, F32.mul, F32.add, F32.sub, F32.neg, min_def, max_def,
    Color.mk.injEq]

/-- create_model_matrix from main.rs: translation and uniform scale combined
in one matrix, multiplied by the rotation matrix Rz times Ry times Rx. -/
def create_model_matrix (ops : RealOps) (translation : V3) (scale : ℚ)
    (rotation : V3) : Mat4 :=
  let sin_x := ops.sin rotation.x
  let cos_x := ops.cos rotation.x
  let sin_y := ops.sin rotation.y
  let cos_y := ops.cos rotation.y
  let sin_z := ops.sin rotation.z
  let cos_z := ops.cos rotation.z
  let rotation_matrix_x : Mat4 :=
    ⟨1, 0, 0, 0,
     0, cos_x, -sin_x, 0,
     0, sin_x, cos_x, 0,
     0, 0, 0, 1⟩
  let rotation_matrix_y : Mat4 :=
    ⟨cos_y, 0, sin_y, 0,
     0, 1, 0, 0,
     -sin_y, 0, cos_y, 0,
     0, 0, 0, 1⟩
  let rotation_matrix_z : Mat4 :=
    ⟨cos_z, -sin_z, 0, 0,
     sin_z, cos_z, 0, 0,
     0, 0, 1, 0,
     0, 0, 0, 1⟩
  let rotation_matrix :=
    Mat4.mul (Mat4.mul rotation_matrix_z rotation_matrix_y) rotation_matrix_x
  let transform_matrix : Mat4 :=
    ⟨scale, 0, 0, translation.x,
     0, scale, 0, translation.y,
     0, 0, scale, translation.z,
     0, 0, 0, 1⟩
  Mat4.mul transform_matrix rotation_matrix

/-- calculate_moon_position from main.rs. -/
def calculate_moon_position (ops : RealOps) (time : ℕ) (distance speed : ℚ) : V3 :=
  let angle := (time : ℚ) * speed
  ⟨distance * ops.cos angle, 0, distance * ops.sin angle⟩

def main_translation : V3 := ⟨0, 0, 0⟩

def main_rotation : V3 := ⟨0, 0, 0⟩

def main_scale : ℚ := 2

def moon_scale : ℚ := 1/2

def moon_distance : ℚ := 5/2

def moon_orbit_speed : ℚ := 1/1000

/-- The per frame noise selection of the main loop: sun noise for material
one, mars noise for material two, a zero seeded default instance otherwise. -/
def frame_planet_noise (current_planet : ℕ) : Noise :=
  match current_planet with
  | 1 => create_sun_noise
  | 2 => create_mars_noise
  | _ => noise_with_seed 0

/-- The planet model matrix built by the main loop every frame. -/
def frame_planet_model_matrix (ops : RealOps) : Mat4 :=
  create_model_matrix ops main_translation main_scale main_rotation

/-- The moon model matrix built by the main loop when material two is
selected: translated to the orbital moon position, at half scale. -/
def frame_moon_model_matrix (ops : RealOps) (time : ℕ) : Mat4 :=
  create_model_matrix ops
    (calculate_moon_position ops time moon_distance moon_orbit_speed)
    moon_scale ⟨0, 0, 0⟩

/-- The moon noise instance of the main loop: a fresh default instance with
seed 42. -/
def frame_moon_noise : Noise := noise_with_seed 42

theorem frame_moon_m03 (ops : RealOps) (t : ℕ) :
    (frame_moon_model_matrix ops t).m03 =
      5/2 * ops.cos ((t : ℚ) * (1/1000)) := by
  simp only [frame_moon_model_matrix, create_model_matrix, calculate_moon_position,
    Mat4.mul, moon_distance, moon_orbit_speed, moon_scale]
  ring

theorem frame_moon_m13 (ops : RealOps) (t : ℕ) :
    (frame_moon_model_matrix ops t).m13 = 0 := by
  simp only [frame_moon_model_matrix, create_model_matrix, calculate_moon_position,
    Mat4.mul, moon_distance, moon_orbit_speed, moon_scale]
  ring

theorem frame_moon_m23 (ops : RealOps) (t : ℕ) :
    (frame_moon_model_matrix ops t).m23 =
      5/2 * ops.sin ((t : ℚ) * (1/1000)) := by
  simp only [frame_moon_model_matrix, create_model_matrix, calculate_moon_position,
    Mat4.mul, moon_distance, moon_orbit_speed, moon_scale]
  ring

theorem frame_planet_translation (ops : RealOps) :
    (frame_planet_model_matrix ops).m03 = 0
    ∧ (frame_planet_model_matrix ops).m13 = 0
    ∧ (frame_planet_model_matrix ops).m23 = 0 := by
  refine ⟨?_, ?_, ?_⟩ <;>
    (simp only [frame_planet_model_matrix, create_model_matrix, main_translation,
      main_scale, main_rotation, Mat4.mul]; ring)

theorem frame_moon_m00 (ops : RealOps) (t : ℕ) (hc0 : ops.cos 0 = 1) :
    (frame_moon_model_matrix ops t).m00 = 1/2 := by
  simp only [frame_moon_model_matrix, create_model_matrix, calculate_moon_position,
    Mat4.mul, moon_scale, hc0]
  ring

theorem frame_planet_m00 (ops : RealOps) (hc0 : ops.cos 0 = 1) :
    (frame_planet_model_matrix ops).m00 = 2 := by
  simp only [frame_planet_model_matrix, create_model_matrix, main_translation,
    main_scale, main_rotation, Mat4.mul, hc0]
  ring

/-- C8: in every frame in which the moon is rendered (selected material two),
the moon render call uses a model matrix that differs from the planet model
matrix of that frame, with a different translation column (the moon orbits
at distance five halves, so its translation is nonzero whenever the sine and
cosine of the orbital angle are not both zero, which holds for the f32 sin
and cos) and a different scale (one half against two on the leading diagonal
entry), and a noise instance seeded differently (seed 42 against the mars
noise seed 5678). -/
theorem c8_moon_uniforms_differ (ops : RealOps) (t : ℕ)
    (_hs0 : ops.sin 0 = 0) (hc0 : ops.cos 0 = 1)
    (hcs : ops.cos ((t : ℚ) * (1/1000)) ≠ 0 ∨ ops.sin ((t : ℚ) * (1/1000)) ≠ 0) :
    ((frame_moon_model_matrix ops t).m03, (frame_moon_model_matrix ops t).m13,
       (frame_moon_model_matrix ops t).m23) ≠
      ((frame_planet_model_matrix ops).m03, (frame_planet_model_matrix ops).m13,
       (frame_planet_model_matrix ops).m23)
    ∧ (frame_moon_model_matrix ops t).m00 ≠ (frame_planet_model_matrix ops).m00
    ∧ frame_moon_model_matrix ops t ≠ frame_planet_model_matrix ops
    ∧ frame_moon_noise.seed ≠ (frame_planet_noise 2).seed := by
  have hdiag : (frame_moon_model_matrix ops t).m00 ≠ (frame_planet_model_matrix ops).m00 := by
    rw [frame_moon_m00 ops t hc0, frame_planet_m00 ops hc0]
    norm_num
  refine ⟨?_, hdiag, ?_, ?_⟩
  · intro heq
    simp only [Prod.mk.injEq] at heq
    obtain ⟨e1, -, e3⟩ := heq
    rw [frame_moon_m03, (frame_planet_translation ops).1] at e1
    rw [frame_moon_m23, (frame_planet_translation ops).2.2] at e3
    rcases hcs with hc | hs
    · exact hc (by linarith)
    · exact hs (by linarith)
  · intro heq
    exact hdiag (congrArg Mat4.m00 heq)
  · norm_num [frame_moon_noise, frame_planet_noise, noise_with_seed, create_mars_noise]

def real_ops0 : RealOps := ⟨fun _ => 0, fun _ => 1⟩

theorem c8_moon_uniforms_differ_witness :
    ((frame_moon_model_matrix real_ops0 0).m03, (frame_moon_model_matrix real_ops0 0).m13,
       (frame_moon_model_matrix real_ops0 0).m23) ≠
      ((frame_planet_model_matrix real_ops0).m03, (frame_planet_model_matrix real_ops0).m13,
       (frame_planet_model_matrix real_ops0).m23)
    ∧ (frame_moon_model_matrix real_ops0 0).m00 ≠ (frame_planet_model_matrix real_ops0).m00
    ∧ frame_moon_model_matrix real_ops0 0 ≠ frame_planet_model_matrix real_ops0
    ∧ frame_moon_noise.seed ≠ (frame_planet_noise 2).seed :=
  c8_moon_uniforms_differ real_ops0 0 rfl rfl (Or.inl (by norm_num [real_ops0]))

def frag_big : Fragment :=
  ⟨⟨1611/2, 3⟩, F32.finite 0, ⟨F32.finite 0, F32.finite 0, F32.finite 1⟩,
   F32.finite 1, ⟨F32.finite 0, F32.finite 0, F32.finite 0⟩⟩

theorem c3_bounds_filter_witness :
    (render_target frag_neg).1 = 0 ∧ render_writes 800 600 frag_big = false :=
  ⟨(c3_bounds_filter 800 600 frag_neg).2.1 (by norm_num [frag_neg]),
   (c3_bounds_filter 800 600 frag_big).2.2 (by norm_num [usizeMax])
     (by norm_num [frag_big])⟩
